import Mathlib

/-!
Verification of the batch-analysis orchestrator in `src/backend/app.py`
(a Flask application exposing credit-score and news endpoints).

The embedding models:
* Python strings as lists of Unicode code points (`Str := List Nat`), with
  `str.strip` / `str.upper` modelled on the ASCII fragment (tickers and the
  fixed message strings in the source are ASCII);
* JSON values (`jsonify` bodies) as the inductive `JVal`;
* the three external collaborators (`fetch_and_compute_credit_scores`,
  `get_score_breakdown_data`, `top_headlines`) as a `Gateways` record of
  possibly-failing functions (`Except Str _`, the error carrying `str(e)`);
* each Flask route as a pure function from its inputs and the gateway
  behaviour to a pair `(HTTP status, response body)`; the `datetime.now()`
  timestamp is an explicit parameter `ts` supplied at assembly time.
-/

namespace CredTech

/-- A Python string, as its list of code points. -/
abbrev Str := List Nat

/-- Embed a Lean string literal as a `Str` (code points). -/
def S (s : String) : Str := s.data.map Char.toNat

/-- Python `str.strip` whitespace set, ASCII fragment: space, \t, \n, \r, \v, \f. -/
def isSpace (c : Nat) : Bool :=
  c == 32 || c == 9 || c == 10 || c == 13 || c == 11 || c == 12

/-- Remove leading whitespace (Python `str.lstrip`). -/
def lstrip (s : Str) : Str := s.dropWhile isSpace

/-- Remove trailing whitespace (Python `str.rstrip`). -/
def rstrip (s : Str) : Str := (s.reverse.dropWhile isSpace).reverse

/-- Python `str.strip`: remove leading and trailing whitespace. -/
def strip (s : Str) : Str := rstrip (lstrip s)

/-- Python `str.upper` on one code point (ASCII fragment): `a`-`z` map to `A`-`Z`. -/
def upperChar (c : Nat) : Nat := if 97 ≤ c ∧ c ≤ 122 then c - 32 else c

/-- Python `str.upper` (ASCII fragment). -/
def upper (s : Str) : Str := s.map upperChar

/-- A JSON value, as produced by `jsonify`. Object keys are themselves
strings (`Str`), since the batch results object is keyed by tickers. -/
inductive JVal where
  | str (s : Str)
  | num (n : Int)
  | bool (b : Bool)
  | arr (xs : List JVal)
  | obj (fields : List (Str × JVal))

/-- Whether a JSON value is an object carrying the given key. -/
def hasField (j : JVal) (k : Str) : Bool :=
  match j with
  | .obj fs => fs.any (fun p => p.1 == k)
  | _ => false

/-- Look up a key in a JSON object (first occurrence), `none` otherwise. -/
def getField (j : JVal) (k : Str) : Option JVal :=
  match j with
  | .obj fs => (fs.find? (fun p => p.1 == k)).map Prod.snd
  | _ => none

/-- Look up a key expected to hold a JSON string; `none` if absent or not a string. -/
def getStrField (j : JVal) (k : Str) : Option Str :=
  match j with
  | .obj fs =>
    match fs.find? (fun p => p.1 == k) with
    | some (_, .str s) => some s
    | _ => none
  | _ => none

/-- Python `ticker in credit_results` / `credit_results[ticker]` on the
dict returned by the scoring gateway, modelled as an association list. -/
def dlookup (m : List (Str × JVal)) (k : Str) : Option JVal :=
  (m.find? (fun p => p.1 == k)).map Prod.snd

/-- The three external collaborators consumed by `app.py`:
`fetch_and_compute_credit_scores` (a dict from ticker to opaque score result,
or a raised exception carrying `str(e)`), `get_score_breakdown_data`, and
`top_headlines`. -/
structure Gateways where
  scores : List Str → Except Str (List (Str × JVal))
  breakdown : Except Str JVal
  headlines : Str → Int → Except Str (List JVal)

/-- An HTTP response: status code and `jsonify` body. -/
abbrev Resp := Nat × JVal

/-- The `@app.errorhandler(404)` handler `not_found_error` (app.py:18-24). -/
def not_found_error : Resp :=
  (404, .obj [(S ("error"), .str (S ("Not Found"))),
              (S ("message"), .str (S ("The requested resource was not found"))),
              (S ("status"), .num 404)])

/-- The `@app.errorhandler(400)` handler `bad_request_error` (app.py:26-32). -/
def bad_request_error : Resp :=
  (400, .obj [(S ("error"), .str (S ("Bad Request"))),
              (S ("message"), .str (S ("Invalid request parameters"))),
              (S ("status"), .num 400)])

/-- The `@app.errorhandler(500)` handler `internal_error` (app.py:34-40). -/
def internal_error : Resp :=
  (500, .obj [(S ("error"), .str (S ("Internal Server Error"))),
              (S ("message"), .str (S ("An unexpected error occurred"))),
              (S ("status"), .num 500)])

/-- Route `/api/chart-data` (app.py:48-56): returns the breakdown verbatim,
or a 500 with a fixed message when the provider raises. -/
def chart_data (g : Gateways) : Resp :=
  match g.breakdown with
  | .ok d => (200, d)
  | .error _ => (500, .obj [(S ("error"), .str (S ("Failed to load chart data")))])

/-- Route `/api/company-analysis/<ticker>` (app.py:58-91). The ticker is
uppercased, scored; a missing key in the scoring dict yields a 404; any
raised exception yields a 500 whose body interpolates `str(e)`. -/
def company_analysis (g : Gateways) (ts : Str) (ticker : Str) : Resp :=
  let t := upper ticker
  match g.scores [t] with
  | .error e =>
    (500, .obj [(S ("error"),
                 .str (S ("Failed to analyze ") ++ t ++ S (": ") ++ e))])
  | .ok m =>
    match dlookup m t with
    | none =>
      (404, .obj [(S ("error"),
                   .str (S ("No financial data available for ") ++ t ++
                         S (". Please check the ticker symbol.")))])
    | some sc =>
      match g.breakdown with
      | .error e =>
        (500, .obj [(S ("error"),
                     .str (S ("Failed to analyze ") ++ t ++ S (": ") ++ e))])
      | .ok bd =>
        (200, .obj [(S ("ticker"), .str t),
                    (S ("credit_scores"), sc),
                    (S ("breakdown"), bd),
                    (S ("success"), .bool true),
                    (S ("timestamp"), .str ts)])

/-- The list comprehension at app.py:112:
`[ticker.upper().strip() for ticker in tickers if ticker.strip()]`. -/
def normalizeTickers (l : List Str) : List Str :=
  (l.filter (fun t => !(strip t).isEmpty)).map (fun t => strip (upper t))

/-- Route `/api/batch-analysis` (app.py:93-134). The request body is
`none` for a missing/falsy JSON body, otherwise the raw `tickers` list
(a missing `tickers` key is `data.get('tickers', [])`, i.e. `some []`). -/
def batch_analysis (g : Gateways) (ts : Str) (body : Option (List Str)) : Resp :=
  match body with
  | none => (400, .obj [(S ("error"), .str (S ("No JSON data provided")))])
  | some tickers =>
    if tickers.isEmpty then
      (400, .obj [(S ("error"), .str (S ("No tickers provided")))])
    else if tickers.length > 10 then
      (400, .obj [(S ("error"), .str (S ("Maximum 10 tickers per batch")))])
    else
      let tickers' := normalizeTickers tickers
      if tickers'.isEmpty then
        (400, .obj [(S ("error"), .str (S ("No valid tickers provided")))])
      else
        match g.scores tickers' with
        | .error _ => (500, .obj [(S ("error"), .str (S ("Batch analysis failed")))])
        | .ok m =>
          match g.breakdown with
          | .error _ => (500, .obj [(S ("error"), .str (S ("Batch analysis failed")))])
          | .ok bd =>
            (200, .obj [(S ("results"), .obj m),
                        (S ("breakdown"), bd),
                        (S ("processed_count"), .num m.length),
                        (S ("requested_count"), .num tickers'.length),
                        (S ("success"), .bool true),
                        (S ("timestamp"), .str ts)])

/-- The clamp at app.py:144: `n = min(max(n, 1), 10)`. -/
def clampCount (n : Int) : Int := min (max n 1) 10

/-- Route `/api/news/<ticker>` (app.py:136-162). `count` is the parsed
`count` query argument (Flask default 3 applied by the caller). -/
def get_news (g : Gateways) (ts : Str) (ticker : Str) (count : Int) : Resp :=
  let t := upper ticker
  let n := clampCount count
  match g.headlines t n with
  | .error e =>
    (500, .obj [(S ("error"),
                 .str (S ("Failed to fetch news for ") ++ t ++ S (": ") ++ e))])
  | .ok hs =>
    (200, .obj [(S ("ticker"), .str t),
                (S ("headlines"), .arr hs),
                (S ("count"), .num hs.length),
                (S ("success"), .bool true),
                (S ("timestamp"), .str ts)])

/-- Route `/api/company-analysis-full/<ticker>` (app.py:164-203). -/
def company_analysis_full (g : Gateways) (ts : Str) (ticker : Str) : Resp :=
  let t := upper ticker
  match g.scores [t] with
  | .error e =>
    (500, .obj [(S ("error"),
                 .str (S ("Failed to analyze ") ++ t ++ S (": ") ++ e))])
  | .ok m =>
    match dlookup m t with
    | none =>
      (404, .obj [(S ("error"),
                   .str (S ("No financial data available for ") ++ t))])
    | some sc =>
      match g.breakdown with
      | .error e =>
        (500, .obj [(S ("error"),
                     .str (S ("Failed to analyze ") ++ t ++ S (": ") ++ e))])
      | .ok bd =>
        match g.headlines t 5 with
        | .error e =>
          (500, .obj [(S ("error"),
                       .str (S ("Failed to analyze ") ++ t ++ S (": ") ++ e))])
        | .ok hs =>
          (200, .obj [(S ("ticker"), .str t),
                      (S ("credit_scores"), sc),
                      (S ("breakdown"), bd),
                      (S ("news"), .obj [(S ("headlines"), .arr hs),
                                         (S ("count"), .num hs.length)]),
                      (S ("success"), .bool true),
                      (S ("timestamp"), .str ts)])

/-- Route `/api/health` (app.py:206-213). -/
def health_check (ts : Str) : Resp :=
  (200, .obj [(S ("status"), .str (S ("healthy"))),
              (S ("timestamp"), .str ts),
              (S ("version"), .str (S ("1.0.0")))])

/-! ### String algebra: `strip` and `upper` -/

theorem dropWhile_idem (p : Nat → Bool) (l : List Nat) :
    (l.dropWhile p).dropWhile p = l.dropWhile p := by
  induction l with
  | nil => rfl
  | cons a l ih =>
    by_cases h : p a
    · simp [List.dropWhile_cons, h, ih]
    · simp [List.dropWhile_cons, h]

theorem head_dropWhile_false (p : Nat → Bool) (l : List Nat) :
    ∀ c ∈ (l.dropWhile p).head?, p c = false := by
  induction l with
  | nil => intro c h; simp at h
  | cons a l ih =>
    by_cases h : p a
    · simpa [List.dropWhile_cons, h] using ih
    · intro c hc
      simp [List.dropWhile_cons, h] at hc
      subst hc
      simpa using h

theorem dropWhile_eq_self_of_head (p : Nat → Bool) (l : List Nat)
    (h : ∀ c ∈ l.head?, p c = false) : l.dropWhile p = l := by
  cases l with
  | nil => rfl
  | cons a l => simp [List.dropWhile_cons, h a (by simp)]

theorem lstrip_idem (s : Str) : lstrip (lstrip s) = lstrip s :=
  dropWhile_idem isSpace s

theorem rstrip_idem (s : Str) : rstrip (rstrip s) = rstrip s := by
  unfold rstrip
  rw [List.reverse_reverse, dropWhile_idem]

theorem rstrip_prefix (m : Str) : rstrip m <+: m := by
  rw [← List.reverse_suffix]
  unfold rstrip
  rw [List.reverse_reverse]
  exact List.dropWhile_suffix _

theorem lstrip_rstrip (m : Str) (h : ∀ c ∈ m.head?, isSpace c = false) :
    lstrip (rstrip m) = rstrip m := by
  rcases rstrip_prefix m with ⟨t, ht⟩
  cases hr : rstrip m with
  | nil => rfl
  | cons a r =>
    apply dropWhile_eq_self_of_head
    intro c hc
    simp at hc
    subst hc
    apply h
    rw [← ht, hr]
    simp

theorem strip_idem (s : Str) : strip (strip s) = strip s := by
  unfold strip
  rw [lstrip_rstrip (lstrip s) (head_dropWhile_false isSpace s), rstrip_idem]

theorem upperChar_idem (c : Nat) : upperChar (upperChar c) = upperChar c := by
  unfold upperChar
  split_ifs <;> omega

theorem isSpace_eq_true_iff (c : Nat) :
    isSpace c = true ↔ c = 32 ∨ c = 9 ∨ c = 10 ∨ c = 13 ∨ c = 11 ∨ c = 12 := by
  simp [isSpace]
  tauto

theorem isSpace_upperChar (c : Nat) : isSpace (upperChar c) = isSpace c := by
  unfold upperChar
  split_ifs with h
  · have h1 : isSpace (c - 32) = false := by
      rw [Bool.eq_false_iff, Ne, isSpace_eq_true_iff]; omega
    have h2 : isSpace c = false := by
      rw [Bool.eq_false_iff, Ne, isSpace_eq_true_iff]; omega
    rw [h1, h2]
  · rfl

theorem upper_idem (s : Str) : upper (upper s) = upper s := by
  unfold upper
  rw [List.map_map]
  exact List.map_congr_left (fun a _ => upperChar_idem a)

theorem lstrip_upper (s : Str) : lstrip (upper s) = upper (lstrip s) := by
  unfold lstrip upper
  rw [List.dropWhile_map]
  simp only [Function.comp_def, isSpace_upperChar]

theorem rstrip_upper (s : Str) : rstrip (upper s) = upper (rstrip s) := by
  unfold rstrip upper
  rw [← List.map_reverse, List.dropWhile_map, ← List.map_reverse]
  simp only [Function.comp_def, isSpace_upperChar]

theorem strip_upper (s : Str) : strip (upper s) = upper (strip s) := by
  unfold strip
  rw [lstrip_upper, rstrip_upper]

theorem strip_upper_eq_nil_iff (t : Str) : strip (upper t) = [] ↔ strip t = [] := by
  rw [strip_upper]
  unfold upper
  exact List.map_eq_nil_iff

theorem canon_idem (t : Str) :
    strip (upper (strip (upper t))) = strip (upper t) := by
  have h1 : upper (strip (upper t)) = strip (upper t) := by
    rw [← strip_upper, upper_idem]
  rw [h1, strip_idem]

theorem strip_ne_nil_of_mem_filter (l : List Str) (a : Str)
    (ha : a ∈ l.filter (fun t => !(strip t).isEmpty)) : strip a ≠ [] := by
  have hc := (List.mem_filter.mp ha).2
  simpa using hc

theorem normalizeTickers_mem (l : List Str) :
    ∀ t ∈ normalizeTickers l, strip t = t ∧ upper t = t ∧ t ≠ [] := by
  intro t ht
  unfold normalizeTickers at ht
  rcases List.mem_map.mp ht with ⟨a, ha, rfl⟩
  have h1 : strip a ≠ [] := strip_ne_nil_of_mem_filter l a ha
  refine ⟨strip_idem _, ?_, ?_⟩
  · rw [← strip_upper, upper_idem]
  · rw [Ne, strip_upper_eq_nil_iff]
    exact h1

/-! ### Concrete collaborator behaviours used in instantiations -/

/-- A fixed assembly-time timestamp. -/
def tsW : Str := S ("2024-01-01T00:00:00")

/-- An opaque concrete score result. -/
def scW : JVal := .obj [(S ("score"), .num 720)]

/-- A gateway behaviour that resolves exactly AAPL and MSFT, with a
breakdown object and a single headline. -/
def gOk : Gateways :=
  ⟨fun l => .ok ((l.filter (fun t => t == S ("AAPL") || t == S ("MSFT"))).map
      (fun t => (t, scW))),
   .ok (.obj [(S ("weights"), .arr [])]),
   fun _ _ => .ok [.obj [(S ("title"), .str (S ("Earnings up")))]]⟩

/-- A gateway behaviour whose scoring call raises an exception with detail `e`. -/
def gFailScores (e : Str) : Gateways :=
  ⟨fun _ => .error e, .ok (.obj []), fun _ _ => .ok []⟩

/-- A gateway behaviour where every collaborator raises with detail `e`. -/
def gFailAll (e : Str) : Gateways :=
  ⟨fun _ => .error e, .error e, fun _ _ => .error e⟩

/-- A gateway behaviour whose scoring call returns an empty mapping. -/
def gEmpty : Gateways :=
  ⟨fun _ => .ok [], .ok (.obj []), fun _ _ => .ok []⟩

/-! ### The claims -/

/-- C1: every batch request whose raw tickers list has more than 10 entries
is rejected with the 400 body `Maximum 10 tickers per batch`, computed from
the originally supplied list length alone — the response is independent of
the gateway behaviour `g` (no gateway call is made) and of how many entries
are valid, blank or duplicated. -/
theorem batch_cap_on_raw_length (g : Gateways) (ts : Str) (raw : List Str)
    (h : raw.length > 10) :
    batch_analysis g ts (some raw) =
      (400, .obj [(S ("error"), .str (S ("Maximum 10 tickers per batch")))]) := by
  have hne : raw.isEmpty = false := by
    cases raw with
    | nil => simp at h
    | cons a l => rfl
  simp [batch_analysis, hne, h]

/-- An 11-entry raw list containing duplicates and a blank entry. -/
def rawW : List Str :=
  [S ("aapl"), S ("AAPL"), S (" "), S ("msft"), S ("tsla"), S ("goog"),
   S ("amzn"), S ("meta"), S ("nvda"), S ("nflx"), S ("intc")]

/-- C1 witness: the cap fires on a concrete 11-entry raw list with blanks and
duplicates, under a gateway that could have resolved the valid entries. -/
theorem batch_cap_on_raw_length_witness :
    rawW.length = 11 ∧
    batch_analysis gOk tsW (some rawW) =
      (400, .obj [(S ("error"), .str (S ("Maximum 10 tickers per batch")))]) :=
  ⟨by decide, batch_cap_on_raw_length gOk tsW rawW (by decide)⟩

/-- C2 counterexample: the normalizer at app.py:112 does not deduplicate —
on the raw input `["aapl", "AAPL", "msft"]` it returns
`["AAPL", "AAPL", "MSFT"]`, not the claimed `["AAPL", "MSFT"]`. -/
theorem batch_normalizer_dedup_cex :
    normalizeTickers [S ("aapl"), S ("AAPL"), S ("msft")] ≠
      [S ("AAPL"), S ("MSFT")] ∧
    normalizeTickers [S ("aapl"), S ("AAPL"), S ("msft")] =
      [S ("AAPL"), S ("AAPL"), S ("MSFT")] := by
  constructor
  · decide
  · decide

/-- C2 (amended): the normalizer trims each entry, discards entries blank
after trimming, and uppercases the survivors, but performs no
deduplication: every output is a trimmed uppercase non-empty string, the
output length equals the number of non-blank raw entries (duplicates are
kept), and `["aapl", "AAPL", "msft"]` normalizes to `["AAPL", "AAPL", "MSFT"]`. -/
theorem batch_normalizer_amended (l : List Str) :
    (∀ t ∈ normalizeTickers l, strip t = t ∧ upper t = t ∧ t ≠ []) ∧
    (normalizeTickers l).length =
      (l.filter (fun t => !(strip t).isEmpty)).length ∧
    normalizeTickers [S ("aapl"), S ("AAPL"), S ("msft")] =
      [S ("AAPL"), S ("AAPL"), S ("MSFT")] := by
  refine ⟨normalizeTickers_mem l, ?_, by decide⟩
  unfold normalizeTickers
  rw [List.length_map]

/-- C2 amended witness: the element-wise facts at a concrete normalized entry. -/
theorem batch_normalizer_amended_witness :
    strip (S ("AAPL")) = S ("AAPL") ∧ upper (S ("AAPL")) = S ("AAPL") ∧
      S ("AAPL") ≠ ([] : Str) :=
  (batch_normalizer_amended [S ("aapl")]).1 (S ("AAPL")) (by decide)

/-- C9: the code's normalization is idempotent — running the app.py:112
comprehension on its own output returns that output unchanged (the
canonical trimmed-uppercased form is a fixed point; note there is no
deduplication in the code, and none is needed for idempotence). -/
theorem batch_normalization_idempotent (l : List Str) :
    normalizeTickers (normalizeTickers l) = normalizeTickers l := by
  unfold normalizeTickers
  rw [List.filter_map, List.map_map]
  have hfilter : (l.filter fun t => !(strip t).isEmpty).filter
      ((fun t => !(strip t).isEmpty) ∘ (fun t => strip (upper t))) =
      l.filter fun t => !(strip t).isEmpty := by
    apply List.filter_eq_self.mpr
    intro a ha
    have h1 : strip a ≠ [] := strip_ne_nil_of_mem_filter l a ha
    simp only [Function.comp_apply, Bool.not_eq_true', ← Bool.not_eq_true]
    rw [strip_idem]
    simp [List.isEmpty_iff, strip_upper_eq_nil_iff]
    exact h1
  rw [hfilter]
  exact List.map_congr_left (fun a _ => canon_idem a)

/-- C3: when the scoring and breakdown calls succeed, the batch envelope
reports `processed_count` = number of keys in the scoring dict and
`requested_count` = number of normalized requested tickers, embeds exactly
the resolved entries verbatim as `results`, and reports no per-ticker
errors; whenever the dict's keys all come from the requested tickers and
some requested ticker is absent from it, `processed_count < requested_count`. -/
theorem batch_partial_coverage (g : Gateways) (ts : Str) (raw : List Str)
    (m : List (Str × JVal)) (bd : JVal)
    (hne : raw ≠ []) (hcap : ¬raw.length > 10)
    (hnorm : normalizeTickers raw ≠ [])
    (hs : g.scores (normalizeTickers raw) = .ok m)
    (hb : g.breakdown = .ok bd)
    (hnd : (m.map Prod.fst).Nodup) :
    batch_analysis g ts (some raw) =
      (200, .obj [(S ("results"), .obj m),
                  (S ("breakdown"), bd),
                  (S ("processed_count"), .num m.length),
                  (S ("requested_count"), .num (normalizeTickers raw).length),
                  (S ("success"), .bool true),
                  (S ("timestamp"), .str ts)]) ∧
    ((∀ p ∈ m, p.1 ∈ normalizeTickers raw) →
      (∃ t ∈ normalizeTickers raw, dlookup m t = none) →
      m.length < (normalizeTickers raw).length) := by
  constructor
  · have h0 : raw.isEmpty = false := by
      cases raw with
      | nil => exact absurd rfl hne
      | cons a l => rfl
    have h1 : (normalizeTickers raw).isEmpty = false := by
      cases hn : normalizeTickers raw with
      | nil => exact absurd hn hnorm
      | cons a l => rfl
    simp [batch_analysis, h0, h1, hcap, hs, hb]
  · intro hsub hex
    rcases hex with ⟨t, htn, htl⟩
    have hfind : m.find? (fun p => p.1 == t) = none := by
      unfold dlookup at htl
      cases h : m.find? (fun p => p.1 == t) with
      | none => rfl
      | some v => rw [h] at htl; simp at htl
    have htk : t ∉ m.map Prod.fst := by
      intro hmem
      rcases List.mem_map.mp hmem with ⟨p, hp, hpt⟩
      have hnp := List.find?_eq_none.mp hfind p hp
      simp [hpt] at hnp
    have hsub' : (m.map Prod.fst).toFinset ⊆ (normalizeTickers raw).toFinset := by
      intro x hx
      rw [List.mem_toFinset] at hx ⊢
      rcases List.mem_map.mp hx with ⟨p, hp, rfl⟩
      exact hsub p hp
    have hss : (m.map Prod.fst).toFinset ⊂ (normalizeTickers raw).toFinset := by
      rw [Finset.ssubset_def]
      refine ⟨hsub', fun hcon => ?_⟩
      exact htk (List.mem_toFinset.mp (hcon (List.mem_toFinset.mpr htn)))
    calc m.length = (m.map Prod.fst).length := (List.length_map m Prod.fst).symm
      _ = (m.map Prod.fst).toFinset.card := (List.toFinset_card_of_nodup hnd).symm
      _ < (normalizeTickers raw).toFinset.card := Finset.card_lt_card hss
      _ ≤ (normalizeTickers raw).length := List.toFinset_card_le _

/-- The breakdown object returned by `gOk`. -/
def bdW : JVal := .obj [(S ("weights"), .arr [])]

/-- Three requested tickers, of which `gOk` resolves two. -/
def raw3 : List Str := [S ("aapl"), S ("msft"), S ("tsla")]

/-- The scoring dict `gOk` returns for the normalized `raw3`. -/
def m3 : List (Str × JVal) := [(S ("AAPL"), scW), (S ("MSFT"), scW)]

/-- C3 witness: 3 requested tickers, 2 resolved — `processed_count` 2,
`requested_count` 3, exactly the two resolved entries in the payload. -/
theorem batch_partial_coverage_witness :
    batch_analysis gOk tsW (some raw3) =
      (200, .obj [(S ("results"), .obj m3),
                  (S ("breakdown"), bdW),
                  (S ("processed_count"), .num m3.length),
                  (S ("requested_count"), .num (normalizeTickers raw3).length),
                  (S ("success"), .bool true),
                  (S ("timestamp"), .str tsW)]) ∧
    m3.length < (normalizeTickers raw3).length := by
  have h := batch_partial_coverage gOk tsW raw3 m3 bdW (by decide) (by decide)
    (by decide) rfl rfl (by decide)
  exact ⟨h.1, h.2 (by decide) ⟨S ("TSLA"), by decide, rfl⟩⟩

/-- C4: in both the single-ticker and the full analysis route, a ticker
absent from the scoring dict yields a 404 error body, and a 200 response
can only arise with the ticker resolved — its `credit_scores` value taken
from the scoring dict (never an empty or missing score payload). -/
theorem analysis_not_found (g : Gateways) (ts : Str) (ticker : Str) :
    (∀ m, g.scores [upper ticker] = .ok m → dlookup m (upper ticker) = none →
      company_analysis g ts ticker =
        (404, .obj [(S ("error"), .str (S ("No financial data available for ") ++
          upper ticker ++ S (". Please check the ticker symbol.")))]) ∧
      company_analysis_full g ts ticker =
        (404, .obj [(S ("error"),
          .str (S ("No financial data available for ") ++ upper ticker))])) ∧
    ((company_analysis g ts ticker).1 = 200 →
      ∃ m sc bd, g.scores [upper ticker] = .ok m ∧
        dlookup m (upper ticker) = some sc ∧ g.breakdown = .ok bd ∧
        company_analysis g ts ticker =
          (200, .obj [(S ("ticker"), .str (upper ticker)),
                      (S ("credit_scores"), sc),
                      (S ("breakdown"), bd),
                      (S ("success"), .bool true),
                      (S ("timestamp"), .str ts)])) ∧
    ((company_analysis_full g ts ticker).1 = 200 →
      ∃ m sc bd hd, g.scores [upper ticker] = .ok m ∧
        dlookup m (upper ticker) = some sc ∧ g.breakdown = .ok bd ∧
        g.headlines (upper ticker) 5 = .ok hd ∧
        company_analysis_full g ts ticker =
          (200, .obj [(S ("ticker"), .str (upper ticker)),
                      (S ("credit_scores"), sc),
                      (S ("breakdown"), bd),
                      (S ("news"), .obj [(S ("headlines"), .arr hd),
                                         (S ("count"), .num hd.length)]),
                      (S ("success"), .bool true),
                      (S ("timestamp"), .str ts)])) := by
  refine ⟨?_, ?_, ?_⟩
  · intro m hs hl
    constructor
    · simp [company_analysis, hs, hl]
    · simp [company_analysis_full, hs, hl]
  · intro h200
    rcases hs : g.scores [upper ticker] with e | m
    · simp [company_analysis, hs] at h200
    · rcases hl : dlookup m (upper ticker) with _ | sc
      · simp [company_analysis, hs, hl] at h200
      · rcases hb : g.breakdown with e | bd
        · simp [company_analysis, hs, hl, hb] at h200
        · exact ⟨m, sc, bd, rfl, hl, rfl, by simp [company_analysis, hs, hl, hb]⟩
  · intro h200
    rcases hs : g.scores [upper ticker] with e | m
    · simp [company_analysis_full, hs] at h200
    · rcases hl : dlookup m (upper ticker) with _ | sc
      · simp [company_analysis_full, hs, hl] at h200
      · rcases hb : g.breakdown with e | bd
        · simp [company_analysis_full, hs, hl, hb] at h200
        · rcases hh : g.headlines (upper ticker) 5 with e | hd
          · simp [company_analysis_full, hs, hl, hb, hh] at h200
          · exact ⟨m, sc, bd, hd, rfl, hl, rfl, rfl,
              by simp [company_analysis_full, hs, hl, hb, hh]⟩

/-- C4 witness: a gateway resolving nothing yields the 404 body for AAPL;
a gateway resolving AAPL yields a 200 with the resolved score embedded. -/
theorem analysis_not_found_witness :
    company_analysis gEmpty tsW (S ("AAPL")) =
      (404, .obj [(S ("error"), .str (S ("No financial data available for ") ++
        upper (S ("AAPL")) ++ S (". Please check the ticker symbol.")))]) ∧
    company_analysis_full gEmpty tsW (S ("AAPL")) =
      (404, .obj [(S ("error"),
        .str (S ("No financial data available for ") ++ upper (S ("AAPL"))))]) ∧
    (∃ m sc bd, gOk.scores [upper (S ("AAPL"))] = .ok m ∧
      dlookup m (upper (S ("AAPL"))) = some sc ∧ gOk.breakdown = .ok bd ∧
      company_analysis gOk tsW (S ("AAPL")) =
        (200, .obj [(S ("ticker"), .str (upper (S ("AAPL")))),
                    (S ("credit_scores"), sc),
                    (S ("breakdown"), bd),
                    (S ("success"), .bool true),
                    (S ("timestamp"), .str tsW)])) := by
  refine ⟨?_, ?_, ?_⟩
  · exact ((analysis_not_found gEmpty tsW (S ("AAPL"))).1 [] rfl rfl).1
  · exact ((analysis_not_found gEmpty tsW (S ("AAPL"))).1 [] rfl rfl).2
  · exact (analysis_not_found gOk tsW (S ("AAPL"))).2.1 rfl

theorem clampCount_ge_one (n : Int) : 1 ≤ clampCount n := by
  unfold clampCount
  rw [min_def, max_def]
  split_ifs <;> omega

theorem clampCount_le_ten (n : Int) : clampCount n ≤ 10 := by
  unfold clampCount
  rw [min_def, max_def]
  split_ifs <;> omega

theorem clampCount_high (n : Int) (h : 10 < n) : clampCount n = 10 := by
  unfold clampCount
  rw [min_def, max_def]
  split_ifs <;> omega

theorem clampCount_low (n : Int) (h : n ≤ 0) : clampCount n = 1 := by
  unfold clampCount
  rw [min_def, max_def]
  split_ifs <;> omega

theorem clampCount_idem (n : Int) : clampCount (clampCount n) = clampCount n := by
  show min (max (clampCount n) 1) 10 = clampCount n
  rw [max_eq_left (clampCount_ge_one n), min_eq_left (clampCount_le_ten n)]

/-- C5: the requested news count is clamped into [1, 10] before the News
Gateway is invoked — values above 10 become 10, values at or below 0 become
1, the route behaves exactly as if the clamped count had been requested,
and an out-of-range count is never rejected (the route still answers 200
whenever the gateway succeeds on the clamped count). -/
theorem news_count_clamped (g : Gateways) (ts ticker : Str) (n : Int) :
    1 ≤ clampCount n ∧ clampCount n ≤ 10 ∧
    (10 < n → clampCount n = 10) ∧ (n ≤ 0 → clampCount n = 1) ∧
    get_news g ts ticker n = get_news g ts ticker (clampCount n) ∧
    (∀ hs, g.headlines (upper ticker) (clampCount n) = .ok hs →
      (get_news g ts ticker n).1 = 200) := by
  refine ⟨clampCount_ge_one n, clampCount_le_ten n, clampCount_high n,
    clampCount_low n, ?_, ?_⟩
  · unfold get_news
    rw [clampCount_idem]
  · intro hs hok
    simp [get_news, hok]

/-- C5 witness: `count=50` is clamped to 10, `count=-3` to 1, and the
out-of-range request still succeeds against a live gateway. -/
theorem news_count_clamped_witness :
    clampCount 50 = 10 ∧ clampCount (-3) = 1 ∧
    get_news gOk tsW (S ("AAPL")) 50 = get_news gOk tsW (S ("AAPL")) (clampCount 50) ∧
    (get_news gOk tsW (S ("AAPL")) 50).1 = 200 := by
  have h50 := news_count_clamped gOk tsW (S ("AAPL")) 50
  have h3 := news_count_clamped gOk tsW (S ("AAPL")) (-3)
  exact ⟨h50.2.2.1 (by decide), h3.2.2.2.1 (by decide), h50.2.2.2.2.1,
    h50.2.2.2.2.2 _ rfl⟩

/-- C10: on a successful news request the `count` field equals the length
of the headlines list the gateway actually returned (which is embedded
verbatim), not the requested or clamped count. -/
theorem news_count_reflects_returned (g : Gateways) (ts ticker : Str)
    (n : Int) (hs : List JVal)
    (h : g.headlines (upper ticker) (clampCount n) = .ok hs) :
    get_news g ts ticker n =
      (200, .obj [(S ("ticker"), .str (upper ticker)),
                  (S ("headlines"), .arr hs),
                  (S ("count"), .num hs.length),
                  (S ("success"), .bool true),
                  (S ("timestamp"), .str ts)]) := by
  simp [get_news, h]

/-- C10 witness: 5 headlines requested, the gateway returns one, and the
response's `count` is 1. -/
theorem news_count_reflects_returned_witness :
    get_news gOk tsW (S ("AAPL")) 5 =
      (200, .obj [(S ("ticker"), .str (upper (S ("AAPL")))),
                  (S ("headlines"), .arr [.obj [(S ("title"), .str (S ("Earnings up")))]]),
                  (S ("count"), .num 1),
                  (S ("success"), .bool true),
                  (S ("timestamp"), .str tsW)]) :=
  news_count_reflects_returned gOk tsW (S ("AAPL")) 5
    [.obj [(S ("title"), .str (S ("Earnings up")))]] rfl

/-! ### Response-shape helpers shared by the error-taxonomy claims -/

theorem chart_data_error_shape (g : Gateways) (h : (chart_data g).1 ≠ 200) :
    ∃ msg, (chart_data g).2 = .obj [(S ("error"), .str msg)] := by
  rcases hb : g.breakdown with e | bd
  · refine ⟨S ("Failed to load chart data"), ?_⟩
    simp [chart_data, hb]
  · simp [chart_data, hb] at h

theorem company_analysis_error_shape (g : Gateways) (ts ticker : Str)
    (h : (company_analysis g ts ticker).1 ≠ 200) :
    ∃ msg, (company_analysis g ts ticker).2 = .obj [(S ("error"), .str msg)] := by
  rcases hs : g.scores [upper ticker] with e | m
  · refine ⟨S ("Failed to analyze ") ++ upper ticker ++ S (": ") ++ e, ?_⟩
    simp [company_analysis, hs]
  · rcases hl : dlookup m (upper ticker) with _ | sc
    · refine ⟨S ("No financial data available for ") ++ upper ticker ++
        S (". Please check the ticker symbol."), ?_⟩
      simp [company_analysis, hs, hl]
    · rcases hb : g.breakdown with e | bd
      · refine ⟨S ("Failed to analyze ") ++ upper ticker ++ S (": ") ++ e, ?_⟩
        simp [company_analysis, hs, hl, hb]
      · simp [company_analysis, hs, hl, hb] at h

theorem batch_analysis_error_shape (g : Gateways) (ts : Str)
    (body : Option (List Str)) (h : (batch_analysis g ts body).1 ≠ 200) :
    ∃ msg, (batch_analysis g ts body).2 = .obj [(S ("error"), .str msg)] := by
  match body with
  | none => exact ⟨S ("No JSON data provided"), rfl⟩
  | some tickers =>
    by_cases h0 : tickers.isEmpty = true
    · refine ⟨S ("No tickers provided"), ?_⟩
      simp [batch_analysis, h0]
    · by_cases h1 : tickers.length > 10
      · refine ⟨S ("Maximum 10 tickers per batch"), ?_⟩
        simp [batch_analysis, h0, h1]
      · by_cases h2 : (normalizeTickers tickers).isEmpty = true
        · refine ⟨S ("No valid tickers provided"), ?_⟩
          simp [batch_analysis, h0, h1, h2]
        · rcases hs : g.scores (normalizeTickers tickers) with e | m
          · refine ⟨S ("Batch analysis failed"), ?_⟩
            simp [batch_analysis, h0, h1, h2, hs]
          · rcases hb : g.breakdown with e | bd
            · refine ⟨S ("Batch analysis failed"), ?_⟩
              simp [batch_analysis, h0, h1, h2, hs, hb]
            · simp [batch_analysis, h0, h1, h2, hs, hb] at h

theorem get_news_error_shape (g : Gateways) (ts ticker : Str) (n : Int)
    (h : (get_news g ts ticker n).1 ≠ 200) :
    ∃ msg, (get_news g ts ticker n).2 = .obj [(S ("error"), .str msg)] := by
  rcases hh : g.headlines (upper ticker) (clampCount n) with e | hd
  · refine ⟨S ("Failed to fetch news for ") ++ upper ticker ++ S (": ") ++ e, ?_⟩
    simp [get_news, hh]
  · simp [get_news, hh] at h

theorem company_analysis_full_error_shape (g : Gateways) (ts ticker : Str)
    (h : (company_analysis_full g ts ticker).1 ≠ 200) :
    ∃ msg, (company_analysis_full g ts ticker).2 =
      .obj [(S ("error"), .str msg)] := by
  rcases hs : g.scores [upper ticker] with e | m
  · refine ⟨S ("Failed to analyze ") ++ upper ticker ++ S (": ") ++ e, ?_⟩
    simp [company_analysis_full, hs]
  · rcases hl : dlookup m (upper ticker) with _ | sc
    · refine ⟨S ("No financial data available for ") ++ upper ticker, ?_⟩
      simp [company_analysis_full, hs, hl]
    · rcases hb : g.breakdown with e | bd
      · refine ⟨S ("Failed to analyze ") ++ upper ticker ++ S (": ") ++ e, ?_⟩
        simp [company_analysis_full, hs, hl, hb]
      · rcases hh : g.headlines (upper ticker) 5 with e | hd
        · refine ⟨S ("Failed to analyze ") ++ upper ticker ++ S (": ") ++ e, ?_⟩
          simp [company_analysis_full, hs, hl, hb, hh]
        · simp [company_analysis_full, hs, hl, hb, hh] at h

theorem company_analysis_200_shape (g : Gateways) (ts ticker : Str)
    (h : (company_analysis g ts ticker).1 = 200) :
    ∃ sc bd, (company_analysis g ts ticker).2 =
      .obj [(S ("ticker"), .str (upper ticker)),
            (S ("credit_scores"), sc),
            (S ("breakdown"), bd),
            (S ("success"), .bool true),
            (S ("timestamp"), .str ts)] := by
  rcases hs : g.scores [upper ticker] with e | m
  · simp [company_analysis, hs] at h
  · rcases hl : dlookup m (upper ticker) with _ | sc
    · simp [company_analysis, hs, hl] at h
    · rcases hb : g.breakdown with e | bd
      · simp [company_analysis, hs, hl, hb] at h
      · exact ⟨sc, bd, by simp [company_analysis, hs, hl, hb]⟩

theorem batch_analysis_200_shape (g : Gateways) (ts : Str)
    (body : Option (List Str)) (h : (batch_analysis g ts body).1 = 200) :
    ∃ res bd pc rc, (batch_analysis g ts body).2 =
      .obj [(S ("results"), res),
            (S ("breakdown"), bd),
            (S ("processed_count"), .num pc),
            (S ("requested_count"), .num rc),
            (S ("success"), .bool true),
            (S ("timestamp"), .str ts)] := by
  match body with
  | none => simp [batch_analysis] at h
  | some tickers =>
    by_cases h0 : tickers.isEmpty = true
    · simp [batch_analysis, h0] at h
    · by_cases h1 : tickers.length > 10
      · simp [batch_analysis, h0, h1] at h
      · by_cases h2 : (normalizeTickers tickers).isEmpty = true
        · simp [batch_analysis, h0, h1, h2] at h
        · rcases hs : g.scores (normalizeTickers tickers) with e | m
          · simp [batch_analysis, h0, h1, h2, hs] at h
          · rcases hb : g.breakdown with e | bd
            · simp [batch_analysis, h0, h1, h2, hs, hb] at h
            · exact ⟨.obj m, bd, m.length, (normalizeTickers tickers).length,
                by simp [batch_analysis, h0, h1, h2, hs, hb]⟩

theorem get_news_200_shape (g : Gateways) (ts ticker : Str) (n : Int)
    (h : (get_news g ts ticker n).1 = 200) :
    ∃ hd : List JVal, (get_news g ts ticker n).2 =
      .obj [(S ("ticker"), .str (upper ticker)),
            (S ("headlines"), .arr hd),
            (S ("count"), .num hd.length),
            (S ("success"), .bool true),
            (S ("timestamp"), .str ts)] := by
  rcases hh : g.headlines (upper ticker) (clampCount n) with e | hd
  · simp [get_news, hh] at h
  · exact ⟨hd, by simp [get_news, hh]⟩

theorem company_analysis_full_200_shape (g : Gateways) (ts ticker : Str)
    (h : (company_analysis_full g ts ticker).1 = 200) :
    ∃ sc bd hd, (company_analysis_full g ts ticker).2 =
      .obj [(S ("ticker"), .str (upper ticker)),
            (S ("credit_scores"), sc),
            (S ("breakdown"), bd),
            (S ("news"), .obj [(S ("headlines"), .arr hd),
                               (S ("count"), .num (List.length hd))]),
            (S ("success"), .bool true),
            (S ("timestamp"), .str ts)] := by
  rcases hs : g.scores [upper ticker] with e | m
  · simp [company_analysis_full, hs] at h
  · rcases hl : dlookup m (upper ticker) with _ | sc
    · simp [company_analysis_full, hs, hl] at h
    · rcases hb : g.breakdown with e | bd
      · simp [company_analysis_full, hs, hl, hb] at h
      · rcases hh : g.headlines (upper ticker) 5 with e | hd
        · simp [company_analysis_full, hs, hl, hb, hh] at h
        · exact ⟨sc, bd, hd, by simp [company_analysis_full, hs, hl, hb, hh]⟩

/-- C6 counterexample: two distinct gateway exceptions produce two distinct
500 bodies from the company-analysis route — the exception detail is
interpolated into the response, not kept to the log. -/
theorem stable_500_cex :
    (company_analysis (gFailScores (S ("db timeout"))) tsW (S ("AAPL"))).1 = 500 ∧
    (company_analysis (gFailScores (S ("key error"))) tsW (S ("AAPL"))).1 = 500 ∧
    getStrField (company_analysis (gFailScores (S ("db timeout"))) tsW (S ("AAPL"))).2
        (S ("error")) ≠
      getStrField (company_analysis (gFailScores (S ("key error"))) tsW (S ("AAPL"))).2
        (S ("error")) ∧
    (company_analysis (gFailScores (S ("db timeout"))) tsW (S ("AAPL"))).2 ≠
      (company_analysis (gFailScores (S ("key error"))) tsW (S ("AAPL"))).2 := by
  refine ⟨rfl, rfl, by decide, ?_⟩
  intro h
  exact absurd (congrArg (fun b => getStrField b (S ("error"))) h) (by decide)

/-- C6 (amended): the batch-analysis and chart-data routes do convert
gateway failures to fixed 500 bodies independent of the exception detail
`e`, but the company-analysis, news, and full-analysis routes interpolate
`str(e)` into their 500 bodies, so the detail reaches the caller there
rather than only the log. -/
theorem error_detail_amended (g : Gateways) (ts : Str) (raw : List Str)
    (ticker : Str) (n : Int) (e : Str) :
    (g.scores (normalizeTickers raw) = .error e → raw ≠ [] →
      ¬raw.length > 10 → normalizeTickers raw ≠ [] →
      batch_analysis g ts (some raw) =
        (500, .obj [(S ("error"), .str (S ("Batch analysis failed")))])) ∧
    (g.breakdown = .error e →
      chart_data g =
        (500, .obj [(S ("error"), .str (S ("Failed to load chart data")))])) ∧
    (g.scores [upper ticker] = .error e →
      company_analysis g ts ticker =
        (500, .obj [(S ("error"),
          .str (S ("Failed to analyze ") ++ upper ticker ++ S (": ") ++ e))])) ∧
    (g.headlines (upper ticker) (clampCount n) = .error e →
      get_news g ts ticker n =
        (500, .obj [(S ("error"),
          .str (S ("Failed to fetch news for ") ++ upper ticker ++
            S (": ") ++ e))])) ∧
    (g.scores [upper ticker] = .error e →
      company_analysis_full g ts ticker =
        (500, .obj [(S ("error"),
          .str (S ("Failed to analyze ") ++ upper ticker ++ S (": ") ++ e))])) := by
  refine ⟨?_, ?_, ?_, ?_, ?_⟩
  · intro hs hne hcap hnorm
    have h0 : raw.isEmpty = false := by
      cases raw with
      | nil => exact absurd rfl hne
      | cons a l => rfl
    have h1 : (normalizeTickers raw).isEmpty = false := by
      cases hn : normalizeTickers raw with
      | nil => exact absurd hn hnorm
      | cons a l => rfl
    simp [batch_analysis, h0, h1, hcap, hs]
  · intro hb
    simp [chart_data, hb]
  · intro hs
    simp [company_analysis, hs]
  · intro hh
    simp [get_news, hh]
  · intro hs
    simp [company_analysis_full, hs]

/-- C6 amended witness: with every collaborator raising `boom`, batch and
chart-data answer with their fixed 500 bodies while company-analysis,
news, and full-analysis each embed `boom` in their bodies. -/
theorem error_detail_amended_witness :
    batch_analysis (gFailAll (S ("boom"))) tsW (some raw3) =
      (500, .obj [(S ("error"), .str (S ("Batch analysis failed")))]) ∧
    chart_data (gFailAll (S ("boom"))) =
      (500, .obj [(S ("error"), .str (S ("Failed to load chart data")))]) ∧
    company_analysis (gFailAll (S ("boom"))) tsW (S ("AAPL")) =
      (500, .obj [(S ("error"),
        .str (S ("Failed to analyze ") ++ upper (S ("AAPL")) ++ S (": ") ++
          S ("boom")))]) ∧
    get_news (gFailAll (S ("boom"))) tsW (S ("AAPL")) 3 =
      (500, .obj [(S ("error"),
        .str (S ("Failed to fetch news for ") ++ upper (S ("AAPL")) ++
          S (": ") ++ S ("boom")))]) ∧
    company_analysis_full (gFailAll (S ("boom"))) tsW (S ("AAPL")) =
      (500, .obj [(S ("error"),
        .str (S ("Failed to analyze ") ++ upper (S ("AAPL")) ++ S (": ") ++
          S ("boom")))]) := by
  have h := error_detail_amended (gFailAll (S ("boom"))) tsW raw3 (S ("AAPL")) 3
    (S ("boom"))
  exact ⟨h.1 rfl (by decide) (by decide) (by decide), h.2.1 rfl, h.2.2.1 rfl,
    h.2.2.2.1 rfl, h.2.2.2.2 rfl⟩

/-- C7 counterexample: endpoint-generated error bodies do not mirror the
HTTP status: the chart-data 500 body and the batch-analysis 400 cap body
carry only `error` — no `status` and no `message` field. -/
theorem error_body_status_cex :
    chart_data (gFailAll (S ("boom"))) =
      (500, .obj [(S ("error"), .str (S ("Failed to load chart data")))]) ∧
    hasField (chart_data (gFailAll (S ("boom")))).2 (S ("status")) = false ∧
    hasField (chart_data (gFailAll (S ("boom")))).2 (S ("message")) = false ∧
    (batch_analysis (gFailAll (S ("boom"))) tsW (some rawW)).1 = 400 ∧
    hasField (batch_analysis (gFailAll (S ("boom"))) tsW (some rawW)).2
      (S ("status")) = false := by
  exact ⟨rfl, by decide, by decide, rfl, by decide⟩

/-- C7 (amended): every error response produced by the five data routes is
a structured object carrying a human-readable `error` string (never a bare
scalar); only the framework-level 404/400/500 handlers additionally mirror
the HTTP status and a `message` field in the body. -/
theorem error_body_amended (g : Gateways) (ts ticker : Str)
    (body : Option (List Str)) (n : Int) :
    ((chart_data g).1 ≠ 200 →
      ∃ msg, (chart_data g).2 = .obj [(S ("error"), .str msg)]) ∧
    ((company_analysis g ts ticker).1 ≠ 200 →
      ∃ msg, (company_analysis g ts ticker).2 = .obj [(S ("error"), .str msg)]) ∧
    ((batch_analysis g ts body).1 ≠ 200 →
      ∃ msg, (batch_analysis g ts body).2 = .obj [(S ("error"), .str msg)]) ∧
    ((get_news g ts ticker n).1 ≠ 200 →
      ∃ msg, (get_news g ts ticker n).2 = .obj [(S ("error"), .str msg)]) ∧
    ((company_analysis_full g ts ticker).1 ≠ 200 →
      ∃ msg, (company_analysis_full g ts ticker).2 =
        .obj [(S ("error"), .str msg)]) ∧
    (not_found_error.1 = 404 ∧
      getField not_found_error.2 (S ("status")) = some (.num 404) ∧
      hasField not_found_error.2 (S ("error")) = true ∧
      hasField not_found_error.2 (S ("message")) = true) ∧
    (bad_request_error.1 = 400 ∧
      getField bad_request_error.2 (S ("status")) = some (.num 400) ∧
      hasField bad_request_error.2 (S ("error")) = true ∧
      hasField bad_request_error.2 (S ("message")) = true) ∧
    (internal_error.1 = 500 ∧
      getField internal_error.2 (S ("status")) = some (.num 500) ∧
      hasField internal_error.2 (S ("error")) = true ∧
      hasField internal_error.2 (S ("message")) = true) :=
  ⟨chart_data_error_shape g,
   company_analysis_error_shape g ts ticker,
   batch_analysis_error_shape g ts body,
   get_news_error_shape g ts ticker n,
   company_analysis_full_error_shape g ts ticker,
   ⟨rfl, rfl, rfl, rfl⟩, ⟨rfl, rfl, rfl, rfl⟩, ⟨rfl, rfl, rfl, rfl⟩⟩

/-- C7 amended witness: the batch cap rejection is a structured object with
an `error` message. -/
theorem error_body_amended_witness :
    ∃ msg, (batch_analysis gOk tsW (some rawW)).2 =
      .obj [(S ("error"), .str msg)] :=
  (error_body_amended gOk tsW (S ("AAPL")) (some rawW) 3).2.2.1 (by decide)

/-- C8 counterexample: the health endpoint's body has neither a `success`
flag nor an `error` field, so the claimed never-neither exclusivity fails
for it. -/
theorem envelope_exclusivity_cex :
    (health_check tsW).1 = 200 ∧
    hasField (health_check tsW).2 (S ("success")) = false ∧
    hasField (health_check tsW).2 (S ("error")) = false :=
  ⟨rfl, by decide, by decide⟩

/-- C8 (amended): the four analysis/news routes satisfy envelope
exclusivity — a 200 body carries `success: true` and its payload field and
no `error`; a non-200 body carries `error` and no `success` — while the
health endpoint returns a payload with neither a success flag nor an
error field, and the chart-data endpoint returns the provider's breakdown
verbatim on success (no success flag added by the orchestrator) and an
error-only body (no success flag) on failure. -/
theorem envelope_exclusivity_amended (g : Gateways) (ts ticker : Str)
    (body : Option (List Str)) (n : Int) :
    ((company_analysis g ts ticker).1 = 200 →
      getField (company_analysis g ts ticker).2 (S ("success")) =
        some (.bool true) ∧
      hasField (company_analysis g ts ticker).2 (S ("credit_scores")) = true ∧
      hasField (company_analysis g ts ticker).2 (S ("error")) = false) ∧
    ((company_analysis g ts ticker).1 ≠ 200 →
      hasField (company_analysis g ts ticker).2 (S ("error")) = true ∧
      hasField (company_analysis g ts ticker).2 (S ("success")) = false) ∧
    ((batch_analysis g ts body).1 = 200 →
      getField (batch_analysis g ts body).2 (S ("success")) =
        some (.bool true) ∧
      hasField (batch_analysis g ts body).2 (S ("results")) = true ∧
      hasField (batch_analysis g ts body).2 (S ("error")) = false) ∧
    ((batch_analysis g ts body).1 ≠ 200 →
      hasField (batch_analysis g ts body).2 (S ("error")) = true ∧
      hasField (batch_analysis g ts body).2 (S ("success")) = false) ∧
    ((get_news g ts ticker n).1 = 200 →
      getField (get_news g ts ticker n).2 (S ("success")) = some (.bool true) ∧
      hasField (get_news g ts ticker n).2 (S ("headlines")) = true ∧
      hasField (get_news g ts ticker n).2 (S ("error")) = false) ∧
    ((get_news g ts ticker n).1 ≠ 200 →
      hasField (get_news g ts ticker n).2 (S ("error")) = true ∧
      hasField (get_news g ts ticker n).2 (S ("success")) = false) ∧
    ((company_analysis_full g ts ticker).1 = 200 →
      getField (company_analysis_full g ts ticker).2 (S ("success")) =
        some (.bool true) ∧
      hasField (company_analysis_full g ts ticker).2 (S ("news")) = true ∧
      hasField (company_analysis_full g ts ticker).2 (S ("error")) = false) ∧
    ((company_analysis_full g ts ticker).1 ≠ 200 →
      hasField (company_analysis_full g ts ticker).2 (S ("error")) = true ∧
      hasField (company_analysis_full g ts ticker).2 (S ("success")) = false) ∧
    (hasField (health_check ts).2 (S ("success")) = false ∧
      hasField (health_check ts).2 (S ("error")) = false) ∧
    (∀ bd, g.breakdown = .ok bd → chart_data g = (200, bd)) ∧
    ((chart_data g).1 ≠ 200 →
      hasField (chart_data g).2 (S ("error")) = true ∧
      hasField (chart_data g).2 (S ("success")) = false) := by
  refine ⟨?_, ?_, ?_, ?_, ?_, ?_, ?_, ?_, ⟨rfl, rfl⟩, ?_, ?_⟩
  · intro h
    rcases company_analysis_200_shape g ts ticker h with ⟨sc, bd, heq⟩
    rw [heq]
    exact ⟨rfl, rfl, rfl⟩
  · intro h
    rcases company_analysis_error_shape g ts ticker h with ⟨msg, heq⟩
    rw [heq]
    exact ⟨rfl, rfl⟩
  · intro h
    rcases batch_analysis_200_shape g ts body h with ⟨res, bd, pc, rc, heq⟩
    rw [heq]
    exact ⟨rfl, rfl, rfl⟩
  · intro h
    rcases batch_analysis_error_shape g ts body h with ⟨msg, heq⟩
    rw [heq]
    exact ⟨rfl, rfl⟩
  · intro h
    rcases get_news_200_shape g ts ticker n h with ⟨hd, heq⟩
    rw [heq]
    exact ⟨rfl, rfl, rfl⟩
  · intro h
    rcases get_news_error_shape g ts ticker n h with ⟨msg, heq⟩
    rw [heq]
    exact ⟨rfl, rfl⟩
  · intro h
    rcases company_analysis_full_200_shape g ts ticker h with ⟨sc, bd, hd, heq⟩
    rw [heq]
    exact ⟨rfl, rfl, rfl⟩
  · intro h
    rcases company_analysis_full_error_shape g ts ticker h with ⟨msg, heq⟩
    rw [heq]
    exact ⟨rfl, rfl⟩
  · intro bd hb
    simp [chart_data, hb]
  · intro h
    rcases chart_data_error_shape g h with ⟨msg, heq⟩
    rw [heq]
    exact ⟨rfl, rfl⟩

/-- C8 amended witness: a 200 company-analysis body has `success: true`,
its payload, and no error; a 404 one has `error` and no success flag;
chart-data returns the breakdown verbatim. -/
theorem envelope_exclusivity_amended_witness :
    (getField (company_analysis gOk tsW (S ("AAPL"))).2 (S ("success")) =
        some (.bool true) ∧
      hasField (company_analysis gOk tsW (S ("AAPL"))).2 (S ("credit_scores")) =
        true ∧
      hasField (company_analysis gOk tsW (S ("AAPL"))).2 (S ("error")) = false) ∧
    (hasField (company_analysis gEmpty tsW (S ("AAPL"))).2 (S ("error")) = true ∧
      hasField (company_analysis gEmpty tsW (S ("AAPL"))).2 (S ("success")) =
        false) ∧
    chart_data gOk = (200, bdW) :=
  ⟨(envelope_exclusivity_amended gOk tsW (S ("AAPL")) none 3).1 rfl,
   (envelope_exclusivity_amended gEmpty tsW (S ("AAPL")) none 3).2.1 (by decide),
   (envelope_exclusivity_amended gOk tsW (S ("AAPL")) none 3).2.2.2.2.2.2.2.2.2.1
     bdW rfl⟩

end CredTech
